import Mathlib

/-!
Verification of the Player Valuation Engine (apps/api/src/valuation.ts).

All JavaScript numbers are modelled as rationals: every arithmetic
operation the engine performs (fixed decimal weights, sums, products,
divisions, min/max clamps) is exact on the inputs considered here, so ℚ
is a faithful shallow embedding of the computation. The one place the
source can divide by zero (determineTrajectory with a zero previous
impact score) is modelled explicitly by the sign cases that IEEE-754
division produces there; see the doc comment on determineTrajectory.
-/

namespace Valuation

/-- Statistics of one player-season, mirroring the SeasonStats record of
valuation.ts: season identifier string plus cumulative counting stats,
with an optional age. -/
structure SeasonStats where
  season : String
  gamesPlayed : ℚ
  minutes : ℚ
  points : ℚ
  assists : ℚ
  rebounds : ℚ
  steals : ℚ
  blocks : ℚ
  turnovers : ℚ
  fgMade : ℚ
  fgAttempted : ℚ
  fg3Made : ℚ
  fg3Attempted : ℚ
  ftMade : ℚ
  ftAttempted : ℚ
  age : Option ℚ
deriving DecidableEq

/-- Contract record, mirroring ContractData of valuation.ts. -/
structure ContractData where
  playerId : String
  playerName : String
  season : String
  salary : ℚ
deriving DecidableEq

/-- Per-season impact score breakdown, mirroring ImpactScoreBreakdown of
valuation.ts. -/
structure ImpactScoreBreakdown where
  pointsPer36 : ℚ
  assistsPer36 : ℚ
  reboundsPer36 : ℚ
  stealsPer36 : ℚ
  blocksPer36 : ℚ
  trueShootingPct : ℚ
  turnoversPer36 : ℚ
  pointsComponent : ℚ
  assistsComponent : ℚ
  reboundsComponent : ℚ
  stealsComponent : ℚ
  blocksComponent : ℚ
  tsComponent : ℚ
  turnoverPenalty : ℚ
  rawImpactScore : ℚ
deriving DecidableEq

/-- Trajectory label returned by determineTrajectory. -/
inductive Trajectory where
  | rising
  | stable
  | declining
  | unknown
deriving DecidableEq

/-- Entry of the per-season breakdown list produced by
calculateWeightedImpactScore (the seasonBreakdowns array). -/
structure SeasonBreakdown where
  season : String
  weight : ℚ
  impactScore : ℚ
deriving DecidableEq

/-- Result triple of calculateStockIndex. -/
structure StockIndexResult where
  stockIndex : ℚ
  percentileRank : ℚ
  trajectoryBonus : ℚ
deriving DecidableEq

-- Impact score weight constants (the WEIGHTS object of valuation.ts).
def WEIGHTS_pointsPer36 : ℚ := 35 / 100
def WEIGHTS_assistsPer36 : ℚ := 20 / 100
def WEIGHTS_reboundsPer36 : ℚ := 15 / 100
def WEIGHTS_stealsPer36 : ℚ := 10 / 100
def WEIGHTS_blocksPer36 : ℚ := 10 / 100
def WEIGHTS_trueShootingPct : ℚ := 10 / 100
def WEIGHTS_turnoverPenalty : ℚ := 5 / 100

/-- Recency weights for the 3-year weighted score, most recent first
(RECENCY_WEIGHTS of valuation.ts). -/
def RECENCY_WEIGHTS : List ℚ := [6 / 10, 3 / 10, 1 / 10]

-- Aging curve parameters of valuation.ts.
def PEAK_AGE_MIN : ℚ := 26
def PEAK_AGE_MAX : ℚ := 28
def YOUNG_BONUS_PER_YEAR : ℚ := 5 / 1000
def OLD_PENALTY_PER_YEAR : ℚ := 1 / 100
def MAX_AGE_ADJUSTMENT : ℚ := 10 / 100

-- Salary calibration anchors of valuation.ts.
def LEAGUE_MEDIAN_SALARY : ℚ := 8500000
def LEAGUE_TOP_SALARY : ℚ := 55000000
def MEDIAN_IMPACT_SCORE : ℚ := 8
def TOP_IMPACT_SCORE : ℚ := 25

/-- True shooting percentage, mirroring calculateTrueShootingPct:
points divided by twice (field goal attempts plus 0.44 times free throw
attempts), with a zero result when the denominator is zero. -/
def calculateTrueShootingPct (points fgAttempted ftAttempted : ℚ) : ℚ :=
  let denominator := 2 * (fgAttempted + 44 / 100 * ftAttempted)
  if denominator = 0 then 0 else points / denominator

/-- Per-36-minute rescaling, mirroring scaleToPer36: zero when minutes
is zero, otherwise stat over minutes times 36. -/
def scaleToPer36 (stat minutes : ℚ) : ℚ :=
  if minutes = 0 then 0 else stat / minutes * 36

/-- Single-season impact score breakdown, mirroring
calculateImpactScoreBreakdown: per-36 stats, true shooting scaled by
100, fixed weights, and the turnover penalty subtracted from the
weighted sum. -/
def calculateImpactScoreBreakdown (stats : SeasonStats) : ImpactScoreBreakdown :=
  let totalMinutes := stats.minutes
  let pointsPer36 := scaleToPer36 stats.points totalMinutes
  let assistsPer36 := scaleToPer36 stats.assists totalMinutes
  let reboundsPer36 := scaleToPer36 stats.rebounds totalMinutes
  let stealsPer36 := scaleToPer36 stats.steals totalMinutes
  let blocksPer36 := scaleToPer36 stats.blocks totalMinutes
  let turnoversPer36 := scaleToPer36 stats.turnovers totalMinutes
  let trueShootingPct := calculateTrueShootingPct stats.points stats.fgAttempted stats.ftAttempted
  let tsScaled := trueShootingPct * 100
  let pointsComponent := pointsPer36 * WEIGHTS_pointsPer36
  let assistsComponent := assistsPer36 * WEIGHTS_assistsPer36
  let reboundsComponent := reboundsPer36 * WEIGHTS_reboundsPer36
  let stealsComponent := stealsPer36 * WEIGHTS_stealsPer36
  let blocksComponent := blocksPer36 * WEIGHTS_blocksPer36
  let tsComponent := tsScaled * WEIGHTS_trueShootingPct
  let turnoverPenalty := turnoversPer36 * WEIGHTS_turnoverPenalty
  let rawImpactScore :=
    pointsComponent + assistsComponent + reboundsComponent + stealsComponent +
      blocksComponent + tsComponent - turnoverPenalty
  ⟨pointsPer36, assistsPer36, reboundsPer36, stealsPer36, blocksPer36,
    trueShootingPct, turnoversPer36, pointsComponent, assistsComponent,
    reboundsComponent, stealsComponent, blocksComponent, tsComponent,
    turnoverPenalty, rawImpactScore⟩

/-- Stable insertion of a season into a list kept in descending season
order: the new element goes after every strictly greater season and
before equal or smaller ones, matching the stable JavaScript
Array.prototype.sort with comparator b.season.localeCompare(a.season). -/
def insertSeasonDesc (x : SeasonStats) : List SeasonStats → List SeasonStats
  | [] => [x]
  | t :: ts => if x.season < t.season then t :: insertSeasonDesc x ts else x :: t :: ts

/-- Stable sort of seasons in descending season order, modelling the
sort in calculateWeightedImpactScore. -/
def sortSeasonsDesc : List SeasonStats → List SeasonStats
  | [] => []
  | x :: xs => insertSeasonDesc x (sortSeasonsDesc xs)

/-- One step of the forEach accumulation in calculateWeightedImpactScore:
the index selects the recency weight, and only seasons with at least 10
games and 100 minutes contribute to the sums and the breakdown list. -/
def weightedImpactStep (acc : ℚ × ℚ × List SeasonBreakdown) (p : ℕ × SeasonStats) :
    ℚ × ℚ × List SeasonBreakdown :=
  let breakdown := calculateImpactScoreBreakdown p.2
  let weight := RECENCY_WEIGHTS.getD p.1 0
  if 10 ≤ p.2.gamesPlayed ∧ 100 ≤ p.2.minutes then
    (acc.1 + breakdown.rawImpactScore * weight, acc.2.1 + weight,
      acc.2.2 ++ [⟨p.2.season, weight, breakdown.rawImpactScore⟩])
  else
    acc

/-- Multi-season aggregation, mirroring calculateWeightedImpactScore:
sort descending by season, keep the three most recent, accumulate the
qualifying seasons with the index-selected recency weights, and
renormalize by the total weight actually used. Returns the weighted
score together with the per-season breakdown list. -/
def calculateWeightedImpactScore (seasonStats : List SeasonStats) :
    ℚ × List SeasonBreakdown :=
  match seasonStats with
  | [] => (0, [])
  | _ :: _ =>
    let sortedStats := sortSeasonsDesc seasonStats
    let recentStats := sortedStats.take 3
    let acc := recentStats.enum.foldl weightedImpactStep (0, 0, [])
    let weightedScore := if 0 < acc.2.1 then acc.1 / acc.2.1 else 0
    (weightedScore, acc.2.2)

/-- Age adjustment factor, mirroring calculateAgeFactor: 1 inside the
peak range 26 to 28, a capped bonus below, a capped penalty above. -/
def calculateAgeFactor (age : ℚ) : ℚ :=
  if PEAK_AGE_MIN ≤ age ∧ age ≤ PEAK_AGE_MAX then 1
  else if age < PEAK_AGE_MIN then
    1 + min ((PEAK_AGE_MIN - age) * YOUNG_BONUS_PER_YEAR) MAX_AGE_ADJUSTMENT
  else
    1 - min ((age - PEAK_AGE_MAX) * OLD_PENALTY_PER_YEAR) MAX_AGE_ADJUSTMENT

/-- Fair annual value, mirroring calculateFairAAV: linear calibration
through the median and top anchors, floored at the minimum salary and
capped at 110 percent of the top salary. -/
def calculateFairAAV (adjustedImpactScore : ℚ) : ℚ :=
  let slope := (LEAGUE_TOP_SALARY - LEAGUE_MEDIAN_SALARY) / (TOP_IMPACT_SCORE - MEDIAN_IMPACT_SCORE)
  let intercept := LEAGUE_MEDIAN_SALARY - slope * MEDIAN_IMPACT_SCORE
  let fairAAV := slope * adjustedImpactScore + intercept
  max 1000000 (min fairAAV (LEAGUE_TOP_SALARY * (110 / 100)))

/-- Stable insertion of a value into an ascending list: after every
strictly smaller element, before equal or greater ones, matching the
stable JavaScript Array.prototype.sort with comparator a - b used on the
comparison population in calculateStockIndex. -/
def insertValueAsc (x : ℚ) : List ℚ → List ℚ
  | [] => [x]
  | t :: ts => if t < x then t :: insertValueAsc x ts else x :: t :: ts

/-- Stable ascending sort of the comparison population, modelling the
sort in calculateStockIndex. -/
def sortValuesAsc : List ℚ → List ℚ
  | [] => []
  | x :: xs => insertValueAsc x (sortValuesAsc xs)

/-- Rank computed by the loop in calculateStockIndex: the loop walks
the ascending sorted population and counts values strictly below the
surplus value, breaking at the first value that is not, which is the
length of the matching prefix. -/
def stockRank (sortedValues : List ℚ) (sv : ℚ) : ℚ :=
  ((sortedValues.takeWhile (fun v => decide (v < sv))).length : ℚ)

/-- Percentile rank in calculateStockIndex: rank over population size
times 100, or 50 for an empty population. -/
def stockPercentileRank (sortedValues : List ℚ) (sv : ℚ) : ℚ :=
  if 0 < sortedValues.length then
    stockRank sortedValues sv / (sortedValues.length : ℚ) * 100
  else 50

/-- Trajectory adjustment in calculateStockIndex: +5 for rising, -5 for
declining, 0 otherwise. -/
def trajectoryBonusOf (trajectory : Trajectory) : ℚ :=
  match trajectory with
  | .rising => 5
  | .declining => -5
  | _ => 0

/-- Stock index, mirroring calculateStockIndex: a neutral 50/50/0
result when the surplus value is null, otherwise the percentile rank of
the surplus value in the sorted comparison population (count of strictly
smaller leading values over the population size, times 100; 50 for an
empty population), plus a clamped trajectory adjustment of +5 for
rising and -5 for declining. -/
def calculateStockIndex (surplusValue : Option ℚ) (allSurplusValues : List ℚ)
    (trajectory : Trajectory) : StockIndexResult :=
  match surplusValue with
  | none => ⟨50, 50, 0⟩
  | some sv =>
    let percentileRank := stockPercentileRank (sortValuesAsc allSurplusValues) sv
    let trajectoryBonus := trajectoryBonusOf trajectory
    let stockIndex := max 0 (min 100 (percentileRank + trajectoryBonus))
    ⟨stockIndex, percentileRank, trajectoryBonus⟩

/-- Trajectory classification, mirroring determineTrajectory: unknown
with fewer than two breakdowns, otherwise the percent change of the most
recent score over the previous one, classified rising above +10 and
declining below -10. When the previous score is zero the source's
IEEE-754 division yields positive infinity, negative infinity, or NaN
according to the sign of the recent score, which the two comparisons
classify as rising, declining, or stable respectively; that sign case
split is modelled explicitly here. -/
def determineTrajectory (seasonBreakdowns : List SeasonBreakdown) : Trajectory :=
  match seasonBreakdowns with
  | [] => .unknown
  | [_] => .unknown
  | b0 :: b1 :: _ =>
    let recent := b0.impactScore
    let previous := b1.impactScore
    if previous = 0 then
      if 0 < recent then .rising
      else if recent < 0 then .declining
      else .stable
    else
      let changePercent := (recent - previous) / previous * 100
      if 10 < changePercent then .rising
      else if changePercent < -10 then .declining
      else .stable

/-- Contract lookup, mirroring getPlayerContract over an explicit
contract list (the in-memory result of the CSV loader): the first record
matching both the player id and the season, if any. -/
def getPlayerContract (contracts : List ContractData) (playerId season : String) :
    Option ContractData :=
  contracts.find? (fun c => c.playerId == playerId && c.season == season)

/-- Explanation sub-structure of the valuation result carrying the
intermediate figures the claims refer to (the currentSeasonBreakdown,
recencyWeights, agingAdjustment and stockIndexCalculation parts of the
source's explanationBreakdown; the constant weight and calibration
echoes are omitted as they carry no computation). -/
structure ExplanationBreakdown where
  currentSeasonBreakdown : Option ImpactScoreBreakdown
  recencyWeights : List SeasonBreakdown
  agingAdjustmentPercent : ℚ
  stockSurplusValue : Option ℚ
  percentileRank : ℚ
  trajectoryBonus : ℚ
deriving DecidableEq

/-- Full valuation result, mirroring ValuationResult of valuation.ts. -/
structure ValuationResult where
  playerId : String
  season : String
  playerAge : ℚ
  currentSeasonImpactScore : ℚ
  weightedImpactScore : ℚ
  ageFactor : ℚ
  adjustedImpactScore : ℚ
  fairAAV : ℚ
  actualAAV : Option ℚ
  surplusValue : Option ℚ
  stockIndex : ℚ
  trajectory : Trajectory
  explanationBreakdown : ExplanationBreakdown
deriving DecidableEq

/-- Main valuation, mirroring computePlayerValuation. The contract list
stands for the loaded contract table (the source reads it from a CSV
file once and caches it); the optional allPlayersSurplusValues mirrors
the optional parameter, whose absence falls back to the singleton or
empty list of the player's own surplus. A contract with a falsy (zero)
salary yields a null actualAAV exactly as the source's
contract?.salary-or-null expression does, and the surplus is fair minus
actual when actual is present. -/
def computePlayerValuation (contracts : List ContractData) (playerId : String)
    (seasonStats : List SeasonStats) (currentSeason : String) (playerAge : ℚ)
    (allPlayersSurplusValues : Option (List ℚ)) : ValuationResult :=
  let currentSeasonStats := seasonStats.find? (fun s => s.season == currentSeason)
  let currentBreakdown := currentSeasonStats.map calculateImpactScoreBreakdown
  let currentSeasonImpactScore := (currentBreakdown.map (fun b => b.rawImpactScore)).getD 0
  let ws := calculateWeightedImpactScore seasonStats
  let weightedScore := ws.1
  let seasonBreakdowns := ws.2
  let ageFactor := calculateAgeFactor playerAge
  let adjustedImpactScore := weightedScore * ageFactor
  let fairAAV := calculateFairAAV adjustedImpactScore
  let contract := getPlayerContract contracts playerId currentSeason
  let actualAAV : Option ℚ :=
    match contract with
    | some c => if c.salary = 0 then none else some c.salary
    | none => none
  let surplusValue := actualAAV.map (fun a => fairAAV - a)
  let trajectory := determineTrajectory seasonBreakdowns
  let surplusForIndex :=
    match allPlayersSurplusValues with
    | some vs => vs
    | none =>
      match surplusValue with
      | some s => [s]
      | none => []
  let si := calculateStockIndex surplusValue surplusForIndex trajectory
  ⟨playerId, currentSeason, playerAge, currentSeasonImpactScore, weightedScore,
    ageFactor, adjustedImpactScore, fairAAV, actualAAV, surplusValue,
    si.stockIndex, trajectory,
    ⟨currentBreakdown, seasonBreakdowns, (ageFactor - 1) * 100, surplusValue,
      si.percentileRank, si.trajectoryBonus⟩⟩

/-- Sample season that fails the qualification thresholds: 5 games and
50 minutes, below both the 10-game and 100-minute bars. -/
def sampleUnqualifiedSeason : SeasonStats :=
  ⟨"2024-25", 5, 50, 100, 0, 0, 0, 0, 0, 0, 0, 0, 0, 0, 0, none⟩

/-- Sample qualifying season: 20 games, 360 minutes, 360 points and no
other counting stats, giving a raw impact score of 63/5. -/
def sampleQualifiedSeason : SeasonStats :=
  ⟨"2023-24", 20, 360, 360, 0, 0, 0, 0, 0, 0, 0, 0, 0, 0, 0, none⟩

/-- Sample structurally invalid season: a negative points total. -/
def sampleNegativeSeason : SeasonStats :=
  ⟨"2024-25", 20, 360, -360, 0, 0, 0, 0, 0, 0, 0, 0, 0, 0, 0, none⟩

/-- Sample season with positive scoring output but an enormous turnover
total: 360 points and 3600 turnovers in 360 minutes. -/
def sampleHighTurnoverSeason : SeasonStats :=
  ⟨"2024-25", 20, 360, 360, 0, 0, 0, 0, 3600, 0, 0, 0, 0, 0, 0, none⟩

/-- Sample qualifying season used for witnesses: identical totals to
sampleQualifiedSeason but dated as the current season. -/
def samplePositiveSeason : SeasonStats :=
  ⟨"2024-25", 20, 360, 360, 0, 0, 0, 0, 0, 0, 0, 0, 0, 0, 0, none⟩

/-- Sample contract with a one million salary. -/
def sampleContract : ContractData :=
  ⟨"p1", "Player One", "2024-25", 1000000⟩

/-- Sample contract whose salary is recorded as zero. -/
def sampleZeroSalaryContract : ContractData :=
  ⟨"p1", "Player One", "2024-25", 0⟩

end Valuation

namespace Valuation

/-- Claim C6: calculateTrueShootingPct returns 0 when both attempt
counts are 0; whenever the denominator is nonzero it equals
points / (2 * (fieldGoalAttempts + 0.44 * freeThrowAttempts)); and at
points 100, 80 field goal attempts and 20 free throw attempts the value
is within one percent of 0.5682. -/
theorem calculateTrueShootingPct_correct (points fga fta : ℚ) :
    (fga = 0 → fta = 0 → calculateTrueShootingPct points fga fta = 0)
    ∧ (2 * (fga + 44 / 100 * fta) ≠ 0 →
        calculateTrueShootingPct points fga fta = points / (2 * (fga + 44 / 100 * fta)))
    ∧ |calculateTrueShootingPct 100 80 20 - 5682 / 10000| ≤ 1 / 100 * (5682 / 10000) := by
  refine ⟨fun h1 h2 => ?_, fun hne => ?_, ?_⟩
  · simp [calculateTrueShootingPct, h1, h2]
  · simp only [calculateTrueShootingPct]
    rw [if_neg hne]
  · have h : calculateTrueShootingPct 100 80 20 = 125 / 222 := by
      norm_num [calculateTrueShootingPct]
    rw [h, abs_le]
    norm_num

/-- Witness for C6: the theorem applied at the concrete inputs of the
claim, with both hypotheses discharged. -/
theorem calculateTrueShootingPct_correct_witness :
    calculateTrueShootingPct 100 80 20 = 100 / (2 * (80 + 44 / 100 * 20))
    ∧ calculateTrueShootingPct 0 0 0 = 0 :=
  ⟨(calculateTrueShootingPct_correct 100 80 20).2.1 (by norm_num),
    (calculateTrueShootingPct_correct 0 0 0).1 rfl rfl⟩

/-- Claim C7: the stock index always lies within the interval from 0
to 100, for every surplus value (null or numeric), population and
trajectory; and a null surplus value yields exactly the neutral result
with index 50, percentile 50, and trajectory bonus 0. -/
theorem calculateStockIndex_bounds (sv : Option ℚ) (pop : List ℚ) (t : Trajectory) :
    (0 ≤ (calculateStockIndex sv pop t).stockIndex
      ∧ (calculateStockIndex sv pop t).stockIndex ≤ 100)
    ∧ calculateStockIndex none pop t = ⟨50, 50, 0⟩ := by
  refine ⟨?_, rfl⟩
  cases sv with
  | none => constructor <;> norm_num [calculateStockIndex]
  | some v =>
    simp only [calculateStockIndex]
    constructor
    · exact le_max_left 0 _
    · exact max_le (by norm_num) (le_trans (min_le_left 100 _) le_rfl)

end Valuation

namespace Valuation

/-- Claim C9: calculateAgeFactor is exactly 1 on ages 26 through 28,
equals 1 plus the capped bonus min((26 - age) * 0.005, 0.10) below 26,
equals 1 minus the capped penalty min((age - 28) * 0.01, 0.10) above 28,
and always lies within the interval from 0.90 to 1.10. -/
theorem calculateAgeFactor_correct (age : ℚ) :
    (26 ≤ age → age ≤ 28 → calculateAgeFactor age = 1)
    ∧ (age < 26 → calculateAgeFactor age = 1 + min ((26 - age) * (5 / 1000)) (10 / 100))
    ∧ (28 < age → calculateAgeFactor age = 1 - min ((age - 28) * (1 / 100)) (10 / 100))
    ∧ 90 / 100 ≤ calculateAgeFactor age ∧ calculateAgeFactor age ≤ 110 / 100 := by
  simp only [calculateAgeFactor, PEAK_AGE_MIN, PEAK_AGE_MAX, YOUNG_BONUS_PER_YEAR,
    OLD_PENALTY_PER_YEAR, MAX_AGE_ADJUSTMENT]
  refine ⟨fun h1 h2 => ?_, fun h => ?_, fun h => ?_, ?_⟩
  · rw [if_pos ⟨h1, h2⟩]
  · rw [if_neg (fun hc => absurd h (not_lt.mpr hc.1)), if_pos h]
  · rw [if_neg (fun hc => absurd h (not_lt.mpr hc.2)),
      if_neg (not_lt.mpr (le_trans (by norm_num) (le_of_lt h)))]
  · by_cases hp : (26:ℚ) ≤ age ∧ age ≤ 28
    · rw [if_pos hp]; norm_num
    · by_cases hy : age < 26
      · rw [if_neg hp, if_pos hy]
        have h1 : min ((26 - age) * (5 / 1000)) ((10:ℚ) / 100) ≤ 10 / 100 := min_le_right _ _
        have h2 : (0:ℚ) ≤ min ((26 - age) * (5 / 1000)) ((10:ℚ) / 100) :=
          le_min (by nlinarith) (by norm_num)
        constructor <;> linarith
      · rw [if_neg hp, if_neg hy]
        have h28 : (28:ℚ) < age := by
          rcases not_and_or.mp hp with hc | hc
          · exact absurd (not_lt.mp hy) hc
          · exact not_le.mp hc
        have h1 : min ((age - 28) * (1 / 100)) ((10:ℚ) / 100) ≤ 10 / 100 := min_le_right _ _
        have h2 : (0:ℚ) ≤ min ((age - 28) * (1 / 100)) ((10:ℚ) / 100) :=
          le_min (by nlinarith) (by norm_num)
        constructor <;> linarith

/-- Witness for C9: the theorem applied at the peak age 27, the young
age 20 and the old age 40, discharging the hypotheses of each part. -/
theorem calculateAgeFactor_correct_witness :
    calculateAgeFactor 27 = 1
    ∧ calculateAgeFactor 20 = 1 + min ((26 - 20) * (5 / 1000)) (10 / 100)
    ∧ calculateAgeFactor 40 = 1 - min ((40 - 28) * (1 / 100)) (10 / 100) :=
  ⟨(calculateAgeFactor_correct 27).1 (by norm_num) (by norm_num),
    (calculateAgeFactor_correct 20).2.1 (by norm_num),
    (calculateAgeFactor_correct 40).2.2.1 (by norm_num)⟩

/-- Claim C5: determineTrajectory is total: on every breakdown list it
returns one of the four labels without error, and in the reachable case
of a zero previous impact score the outcome is the defined sign case of
the IEEE division of the source: rising for a positive recent score,
declining for a negative one, stable for zero over zero. -/
theorem determineTrajectory_total (bds : List SeasonBreakdown) :
    (determineTrajectory bds = Trajectory.rising ∨ determineTrajectory bds = Trajectory.stable
      ∨ determineTrajectory bds = Trajectory.declining
      ∨ determineTrajectory bds = Trajectory.unknown)
    ∧ ∀ b0 b1 rest, b1.impactScore = 0 →
        determineTrajectory (b0 :: b1 :: rest) =
          if 0 < b0.impactScore then Trajectory.rising
          else if b0.impactScore < 0 then Trajectory.declining
          else Trajectory.stable := by
  constructor
  · rcases h : determineTrajectory bds with _ | _ | _ | _ <;> tauto
  · intro b0 b1 rest h
    simp [determineTrajectory, h]

/-- Witness for C5: the theorem applied to a concrete two-season list
whose previous impact score is zero, discharging the hypothesis. -/
theorem determineTrajectory_total_witness :
    determineTrajectory [⟨"2024-25", 6/10, 5⟩, ⟨"2023-24", 3/10, 0⟩] = Trajectory.rising := by
  have h := (determineTrajectory_total []).2 ⟨"2024-25", 6/10, 5⟩ ⟨"2023-24", 3/10, 0⟩ [] rfl
  rw [h]
  norm_num

end Valuation

namespace Valuation

/-- Helper: the length of a takeWhile prefix never exceeds the length
of the list. -/
theorem takeWhile_length_le (p : ℚ → Bool) (l : List ℚ) :
    (l.takeWhile p).length ≤ l.length := by
  induction l with
  | nil => simp
  | cons x xs ih =>
    simp only [List.takeWhile]
    cases p x
    · simp
    · simpa using Nat.succ_le_succ ih

/-- Helper: the percentile rank computed by the stock index ranker
always lies between 0 and 100, for every population and surplus
value. -/
theorem stockPercentileRank_mem (l : List ℚ) (sv : ℚ) :
    0 ≤ stockPercentileRank l sv ∧ stockPercentileRank l sv ≤ 100 := by
  simp only [stockPercentileRank, stockRank]
  split
  · rename_i h
    have hn : (0:ℚ) < (l.length : ℚ) := by exact_mod_cast h
    have hr0 : (0:ℚ) ≤ ((l.takeWhile (fun v => decide (v < sv))).length : ℚ) :=
      Nat.cast_nonneg _
    have hrn : ((l.takeWhile (fun v => decide (v < sv))).length : ℚ) ≤ (l.length : ℚ) := by
      exact_mod_cast takeWhile_length_le _ l
    constructor
    · positivity
    · rw [div_mul_eq_mul_div, div_le_iff₀ hn]
      nlinarith
  · norm_num

/-- Counterexample to claim C3 as stated: with the non-null surplus
value 1 and the non-empty comparison population containing only 0, the
percentile rank is 100, so the +5 rising adjustment is clamped away and
the rising stock index equals the stable one instead of strictly
exceeding it. -/
theorem stockIndex_rising_counterexample :
    (calculateStockIndex (some 1) [0] Trajectory.rising).stockIndex
      = (calculateStockIndex (some 1) [0] Trajectory.stable).stockIndex
    ∧ ([(0:ℚ)] : List ℚ) ≠ [] := by
  constructor
  · norm_num [calculateStockIndex, stockPercentileRank, stockRank, trajectoryBonusOf,
      sortValuesAsc, insertValueAsc, List.takeWhile]
  · simp

/-- Claim C3 amended: for every non-null surplus value and population,
the rising stock index strictly exceeds the stable one whenever the
stable index is below the 100 cap, and the declining index is strictly
below the stable one whenever the stable index is above the 0 floor. -/
theorem stockIndex_trajectory_strict (sv : ℚ) (pop : List ℚ) :
    ((calculateStockIndex (some sv) pop Trajectory.stable).stockIndex < 100 →
      (calculateStockIndex (some sv) pop Trajectory.stable).stockIndex
        < (calculateStockIndex (some sv) pop Trajectory.rising).stockIndex)
    ∧ (0 < (calculateStockIndex (some sv) pop Trajectory.stable).stockIndex →
      (calculateStockIndex (some sv) pop Trajectory.declining).stockIndex
        < (calculateStockIndex (some sv) pop Trajectory.stable).stockIndex) := by
  have hp := stockPercentileRank_mem (sortValuesAsc pop) sv
  have hstable : (calculateStockIndex (some sv) pop Trajectory.stable).stockIndex
      = stockPercentileRank (sortValuesAsc pop) sv := by
    simp only [calculateStockIndex, trajectoryBonusOf, add_zero]
    rw [min_eq_right hp.2, max_eq_right hp.1]
  constructor
  · intro h
    rw [hstable] at h ⊢
    simp only [calculateStockIndex, trajectoryBonusOf]
    have hlt : stockPercentileRank (sortValuesAsc pop) sv
        < min 100 (stockPercentileRank (sortValuesAsc pop) sv + 5) :=
      lt_min h (by linarith)
    exact lt_of_lt_of_le hlt (le_max_right 0 _)
  · intro h
    rw [hstable] at h ⊢
    simp only [calculateStockIndex, trajectoryBonusOf]
    refine max_lt h (lt_of_le_of_lt (min_le_right _ _) ?_)
    linarith

/-- Witness for C3 amended: at surplus value 1 over the population
containing 0 and 2 the stable index is 50, strictly between the rising
index 55 and the declining index 45. -/
theorem stockIndex_trajectory_strict_witness :
    ((calculateStockIndex (some 1) [0, 2] Trajectory.stable).stockIndex
      < (calculateStockIndex (some 1) [0, 2] Trajectory.rising).stockIndex)
    ∧ ((calculateStockIndex (some 1) [0, 2] Trajectory.declining).stockIndex
      < (calculateStockIndex (some 1) [0, 2] Trajectory.stable).stockIndex) :=
  ⟨(stockIndex_trajectory_strict 1 [0, 2]).1 (by
      norm_num [calculateStockIndex, stockPercentileRank, stockRank, trajectoryBonusOf,
        sortValuesAsc, insertValueAsc, List.takeWhile]),
    (stockIndex_trajectory_strict 1 [0, 2]).2 (by
      norm_num [calculateStockIndex, stockPercentileRank, stockRank, trajectoryBonusOf,
        sortValuesAsc, insertValueAsc, List.takeWhile])⟩

/-- Counterexample to claim C4 as stated: a season with positive
scoring output (360 points in 360 minutes) and 3600 turnovers has a
strictly negative raw impact score, because the turnover penalty can
dominate every positive component. -/
theorem rawImpactScore_counterexample :
    0 < sampleHighTurnoverSeason.points ∧ 0 < sampleHighTurnoverSeason.minutes
    ∧ (calculateImpactScoreBreakdown sampleHighTurnoverSeason).rawImpactScore < 0 := by
  norm_num [calculateImpactScoreBreakdown, scaleToPer36, calculateTrueShootingPct,
    WEIGHTS_pointsPer36, WEIGHTS_assistsPer36, WEIGHTS_reboundsPer36, WEIGHTS_stealsPer36,
    WEIGHTS_blocksPer36, WEIGHTS_trueShootingPct, WEIGHTS_turnoverPenalty,
    sampleHighTurnoverSeason]

/-- Claim C4 amended: for a season with positive points and minutes and
non-negative counting stats, the raw impact score is strictly positive
provided the turnover penalty does not outweigh the positive
components, in particular whenever turnovers are zero. -/
theorem rawImpactScore_pos (s : SeasonStats)
    (hp : 0 < s.points) (hm : 0 < s.minutes) (ht : s.turnovers = 0)
    (ha : 0 ≤ s.assists) (hr : 0 ≤ s.rebounds) (hst : 0 ≤ s.steals) (hb : 0 ≤ s.blocks)
    (hfga : 0 ≤ s.fgAttempted) (hfta : 0 ≤ s.ftAttempted) :
    0 < (calculateImpactScoreBreakdown s).rawImpactScore := by
  have hts : 0 ≤ calculateTrueShootingPct s.points s.fgAttempted s.ftAttempted := by
    simp only [calculateTrueShootingPct]
    split
    · exact le_rfl
    · rename_i hne
      refine div_nonneg hp.le ?_
      nlinarith
  have h1 : 0 < s.points / s.minutes := div_pos hp hm
  have h2 : 0 ≤ s.assists / s.minutes := div_nonneg ha hm.le
  have h3 : 0 ≤ s.rebounds / s.minutes := div_nonneg hr hm.le
  have h4 : 0 ≤ s.steals / s.minutes := div_nonneg hst hm.le
  have h5 : 0 ≤ s.blocks / s.minutes := div_nonneg hb hm.le
  simp only [calculateImpactScoreBreakdown, scaleToPer36, WEIGHTS_pointsPer36,
    WEIGHTS_assistsPer36, WEIGHTS_reboundsPer36, WEIGHTS_stealsPer36, WEIGHTS_blocksPer36,
    WEIGHTS_trueShootingPct, WEIGHTS_turnoverPenalty, if_neg (ne_of_gt hm), ht,
    zero_div, zero_mul, mul_zero, sub_zero]
  linarith

/-- Witness for C4 amended: the theorem applied to the concrete
qualifying season with 360 points, 360 minutes and zero turnovers. -/
theorem rawImpactScore_pos_witness :
    0 < (calculateImpactScoreBreakdown samplePositiveSeason).rawImpactScore :=
  rawImpactScore_pos samplePositiveSeason
    (by norm_num [samplePositiveSeason]) (by norm_num [samplePositiveSeason])
    (by norm_num [samplePositiveSeason]) (by norm_num [samplePositiveSeason])
    (by norm_num [samplePositiveSeason]) (by norm_num [samplePositiveSeason])
    (by norm_num [samplePositiveSeason]) (by norm_num [samplePositiveSeason])
    (by norm_num [samplePositiveSeason])

end Valuation

namespace Valuation

/-- Counterexample to claim C1 as stated: with an unqualified most
recent season (5 games, 50 minutes) ahead of a qualifying one, the
qualifying season receives recency weight 0.3, not the 0.6 the claim
asserts, because the weight is selected by position among the three most
recent seasons before the qualification filter runs. -/
theorem recencyWeight_counterexample :
    ((calculateWeightedImpactScore [sampleUnqualifiedSeason, sampleQualifiedSeason]).2.map
      (fun b => b.weight)) = [3 / 10]
    ∧ ((3:ℚ) / 10) ≠ 6 / 10 := by
  constructor
  · have h1 : ¬ (("2024-25" : String) < "2023-24") := by
      simp
      decide
    norm_num [calculateWeightedImpactScore, sortSeasonsDesc, insertSeasonDesc,
      weightedImpactStep, calculateImpactScoreBreakdown, scaleToPer36,
      calculateTrueShootingPct, RECENCY_WEIGHTS, sampleUnqualifiedSeason,
      sampleQualifiedSeason, List.enum, List.enumFrom, h1]
  · norm_num

/-- Claim C1 amended: the recency weights 0.6, 0.3, 0.1 are assigned by
position among the three most recent seasons whether or not they
qualify, so an unqualified season does consume a recency-weight slot;
when the most recent season is unqualified and the next one qualifies,
the qualifying season receives weight 0.3 (and renormalization then
makes the aggregate equal its raw score). -/
theorem weightedImpactScore_slot (s1 s2 : SeasonStats)
    (hlt : s2.season < s1.season)
    (hunq : ¬(10 ≤ s1.gamesPlayed ∧ 100 ≤ s1.minutes))
    (hg : 10 ≤ s2.gamesPlayed) (hm : 100 ≤ s2.minutes) :
    (calculateWeightedImpactScore [s1, s2]).2 =
      [⟨s2.season, 3 / 10, (calculateImpactScoreBreakdown s2).rawImpactScore⟩]
    ∧ (calculateWeightedImpactScore [s1, s2]).1 =
      (calculateImpactScoreBreakdown s2).rawImpactScore := by
  have hns : ¬(s1.season < s2.season) := asymm hlt
  simp only [calculateWeightedImpactScore, sortSeasonsDesc, insertSeasonDesc,
    if_neg hns, List.take, List.enum, List.enumFrom, List.foldl,
    weightedImpactStep, if_neg hunq, if_pos (And.intro hg hm), RECENCY_WEIGHTS,
    List.getD, List.get?, Option.getD, List.nil_append, zero_add]
  norm_num

/-- Witness for C1 amended: the theorem applied to the concrete
unqualified 2024-25 season and qualifying 2023-24 season. -/
theorem weightedImpactScore_slot_witness :
    (calculateWeightedImpactScore [sampleUnqualifiedSeason, sampleQualifiedSeason]).2 =
      [⟨sampleQualifiedSeason.season, 3 / 10,
        (calculateImpactScoreBreakdown sampleQualifiedSeason).rawImpactScore⟩]
    ∧ (calculateWeightedImpactScore [sampleUnqualifiedSeason, sampleQualifiedSeason]).1 =
      (calculateImpactScoreBreakdown sampleQualifiedSeason).rawImpactScore :=
  weightedImpactScore_slot sampleUnqualifiedSeason sampleQualifiedSeason
    (by
      simp [sampleUnqualifiedSeason, sampleQualifiedSeason]
      decide)
    (by norm_num [sampleUnqualifiedSeason])
    (by norm_num [sampleQualifiedSeason])
    (by norm_num [sampleQualifiedSeason])

/-- Counterexample to claim C2 as stated: on an input whose season
record carries a negative points total, computePlayerValuation does not
signal any error; it returns a ValuationResult whose current-season
impact score -63/5 is computed from the malformed data. -/
theorem negativeStats_counterexample :
    sampleNegativeSeason.points < 0
    ∧ (computePlayerValuation [] "p1" [sampleNegativeSeason] "2024-25" 27
        none).currentSeasonImpactScore = -63 / 5 := by
  constructor
  · norm_num [sampleNegativeSeason]
  · norm_num [computePlayerValuation, calculateImpactScoreBreakdown, scaleToPer36,
      calculateTrueShootingPct, WEIGHTS_pointsPer36, WEIGHTS_assistsPer36,
      WEIGHTS_reboundsPer36, WEIGHTS_stealsPer36, WEIGHTS_blocksPer36,
      WEIGHTS_trueShootingPct, WEIGHTS_turnoverPenalty, sampleNegativeSeason, List.find?]

/-- Claim C2 amended: computePlayerValuation performs no input
validation: for every season record with a negative counting stat it
returns a normal ValuationResult whose current-season impact score is
computed by the ordinary formula from the malformed values, signalling
no error. -/
theorem computePlayerValuation_no_validation (contracts : List ContractData)
    (pid cur : String) (age : ℚ) (s : SeasonStats)
    (_hneg : s.points < 0) (hs : s.season = cur) :
    (computePlayerValuation contracts pid [s] cur age none).currentSeasonImpactScore
      = (calculateImpactScoreBreakdown s).rawImpactScore := by
  simp only [computePlayerValuation]
  rw [List.find?_cons_of_pos _ (by simp [hs])]
  simp

/-- Witness for C2 amended: the theorem applied to the concrete season
with -360 points. -/
theorem computePlayerValuation_no_validation_witness :
    (computePlayerValuation [] "p1" [sampleNegativeSeason] "2024-25" 27
        none).currentSeasonImpactScore
      = (calculateImpactScoreBreakdown sampleNegativeSeason).rawImpactScore :=
  computePlayerValuation_no_validation [] "p1" "2024-25" 27 sampleNegativeSeason
    (by norm_num [sampleNegativeSeason]) rfl

/-- Claim C8: in every result of computePlayerValuation, actualAAV and
surplusValue are null together or non-null together, and when both are
present the surplus equals the fair annual value minus the actual
one. -/
theorem computePlayerValuation_surplus_mirrors (contracts : List ContractData)
    (pid : String) (stats : List SeasonStats) (cur : String) (age : ℚ)
    (pop : Option (List ℚ)) :
    ((computePlayerValuation contracts pid stats cur age pop).actualAAV = none ↔
      (computePlayerValuation contracts pid stats cur age pop).surplusValue = none)
    ∧ ∀ a : ℚ, (computePlayerValuation contracts pid stats cur age pop).actualAAV = some a →
        (computePlayerValuation contracts pid stats cur age pop).surplusValue =
          some ((computePlayerValuation contracts pid stats cur age pop).fairAAV - a) := by
  simp only [computePlayerValuation]
  cases hc : getPlayerContract contracts pid cur with
  | none => simp [hc]
  | some c =>
    rcases eq_or_ne c.salary 0 with hz | hz
    · simp [hc, hz]
    · simp only [hc, if_neg hz]
      constructor
      · simp
      · intro a ha
        simp only [Option.map_some, Option.some.injEq] at ha ⊢
        rw [ha]
        simp

/-- Witness for C8: with a contract of salary one million on record,
the surplus value is exactly the fair annual value minus one million. -/
theorem computePlayerValuation_surplus_mirrors_witness :
    (computePlayerValuation [sampleContract] "p1" [] "2024-25" 27 none).surplusValue =
      some ((computePlayerValuation [sampleContract] "p1" [] "2024-25" 27 none).fairAAV
        - 1000000) :=
  (computePlayerValuation_surplus_mirrors [sampleContract] "p1" [] "2024-25" 27 none).2
    1000000
    (by norm_num [computePlayerValuation, getPlayerContract, List.find?, sampleContract])

/-- Claim C10: when the contract on record for the player and season
has salary 0, computePlayerValuation treats the player as having no
compensation: actualAAV and surplusValue are null, and with no supplied
comparison population the stock index is the neutral 50 with trajectory
bonus 0. -/
theorem computePlayerValuation_zero_salary (contracts : List ContractData)
    (pid : String) (stats : List SeasonStats) (cur : String) (age : ℚ)
    (c : ContractData) (hc : getPlayerContract contracts pid cur = some c)
    (h0 : c.salary = 0) :
    (computePlayerValuation contracts pid stats cur age none).actualAAV = none
    ∧ (computePlayerValuation contracts pid stats cur age none).surplusValue = none
    ∧ (computePlayerValuation contracts pid stats cur age none).stockIndex = 50
    ∧ (computePlayerValuation contracts pid stats cur age
        none).explanationBreakdown.trajectoryBonus = 0 := by
  simp only [computePlayerValuation, hc, h0]
  simp [calculateStockIndex]

/-- Witness for C10: the theorem applied to the concrete contract list
holding a zero-salary record for the player. -/
theorem computePlayerValuation_zero_salary_witness :
    (computePlayerValuation [sampleZeroSalaryContract] "p1" [] "2024-25" 27
        none).actualAAV = none
    ∧ (computePlayerValuation [sampleZeroSalaryContract] "p1" [] "2024-25" 27
        none).surplusValue = none
    ∧ (computePlayerValuation [sampleZeroSalaryContract] "p1" [] "2024-25" 27
        none).stockIndex = 50
    ∧ (computePlayerValuation [sampleZeroSalaryContract] "p1" [] "2024-25" 27
        none).explanationBreakdown.trajectoryBonus = 0 :=
  computePlayerValuation_zero_salary [sampleZeroSalaryContract] "p1" [] "2024-25" 27
    sampleZeroSalaryContract
    (by norm_num [getPlayerContract, List.find?, sampleZeroSalaryContract]) rfl

end Valuation
